import Mathlib

/-!
# Verification of the TSP-frontend dashboard logic

A shallow embedding of the client-side logic of the route-optimization
dashboard: the progress-log reconciliation handler, the chart dataset
projection with its tooltip resolution, the pre-network form validation,
the numeric input clamping, and the result-rendering helpers.

Numbers that the JavaScript code holds in IEEE doubles are modelled as
rationals (`ℚ`), extended with an explicit not-a-number marker (`JsNum`)
where the code manufactures `NaN` sentinels.  JavaScript `undefined` /
`null` is modelled with `Option`.  All definitions are executable.
-/

namespace TSPFrontend

/-- A JavaScript number: either an ordinary (rational) value or `NaN`.
Needed because the chart projection deliberately produces `NaN`
coordinates as a line-break sentinel. -/
inductive JsNum where
  | nan : JsNum
  | val : ℚ → JsNum
deriving DecidableEq

/-- `Delivery` from `src/types/optimization.ts`: a delivery point with its
integer identifier (0 is the depot) and plane coordinates. -/
structure Delivery where
  id : Int
  x : ℚ
  y : ℚ
deriving DecidableEq

/-- `DriverRoute` from `src/types/optimization.ts`.  `routePoints` entries
are `Option Delivery` because the chart code guards each entry against
`null`/`undefined` (`p ? {x: p.x, y: p.y} : {x: NaN, y: NaN}`). -/
structure DriverRoute where
  driverId : Int
  routePoints : List (Option Delivery)
  deliveryIds : List Int
  distance : ℚ
  originalIndices : List Int
deriving DecidableEq

/-- `ProgressUpdate` from `src/types/optimization.ts`.  The `data` payload
is opaque to every handler in the repository, so it is modelled as an
optional string.  A missing `clearPreviousProgress` field is falsy in the
handler, hence the `Bool` default. -/
structure ProgressUpdate where
  step : Option String := none
  message : String
  style : String
  data : Option String := none
  clearPreviousProgress : Bool := false
  timestamp : Option Nat := none
deriving DecidableEq

/-- `OptimizationResult` from `src/types/optimization.ts` (union of the
revisions; the CWS distance fields are optional). -/
structure OptimizationResult where
  bestMethod : String
  generatedDeliveries : List Delivery
  optimizedRoute : List Delivery
  bestCutIndices : Option (List Int)
  minMakespan : ℚ
  driverRoutes : List DriverRoute
  initialDistanceNN : ℚ
  optimizedDistanceNN : ℚ
  initialDistanceGI : ℚ
  optimizedDistanceGI : ℚ
  combinationsCheckedNN : Int
  combinationsCheckedGI : Int
  errorMessage : Option String
  totalExecutionTimeMs : ℚ
  pathExecutionTimeMs : Option ℚ := none
  initialDistanceCWS : Option ℚ := none
  optimizedDistanceCWS : Option ℚ := none
deriving DecidableEq

/-- `OptimizationRequestData` from `src/types/optimization.ts`. -/
structure OptimizationRequestData where
  numberOfDeliveries : Int
  numberOfDrivers : Int
  minCoordinate : ℚ
  maxCoordinate : ℚ
deriving DecidableEq

/-! ## Number formatting (`toFixed`) -/

/-- Left-pad a decimal digit string with zeros to the requested width. -/
def padZeros (s : String) (len : Nat) : String :=
  String.mk (List.replicate (len - s.length) '0') ++ s

/-- `q * 10 ^ digits` rounded to the nearest integer, halves up, computed
on the numerator and denominator so that the kernel can evaluate it:
`⌊q·10^d + 1/2⌋ = ⌊(2·num·10^d + den) / (2·den)⌋`. -/
def ratScaledRound (digits : Nat) (q : ℚ) : Int :=
  Int.fdiv (2 * q.num * ((10 ^ digits : Nat) : Int) + (q.den : Int))
    (2 * (q.den : Int))

/-- `q.toFixed(digits)` on an ordinary (non-`NaN`) number: fixed-point
decimal rendering with `digits` fractional digits. -/
def ratToFixed (digits : Nat) (q : ℚ) : String :=
  let scaled : Int := ratScaledRound digits q
  let sign := if scaled < 0 then "-" else ""
  let m := scaled.natAbs
  let ip := m / 10 ^ digits
  let fp := m % 10 ^ digits
  sign ++ toString ip ++ "." ++ padZeros (toString fp) digits

/-- `n.toFixed(digits)` on a JavaScript number (`NaN.toFixed` is `"NaN"`). -/
def jsToFixed (digits : Nat) (n : JsNum) : String :=
  match n with
  | .nan => "NaN"
  | .val q => ratToFixed digits q

/-! ## String helpers -/

/-- Whether `pat` occurs as a contiguous sublist of `l`
(the list form of `String.prototype.includes`). -/
def listContainsSub (l pat : List Char) : Bool :=
  match l with
  | [] => pat.isEmpty
  | _ :: t => pat.isPrefixOf l || listContainsSub t pat

/-- `s.includes(pat)`: substring containment on strings. -/
def strIncludes (s pat : String) : Bool :=
  listContainsSub s.data pat.data

/-! ## Chart projection (`src/components/RouteChart.tsx`)

The projection of deliveries and driver routes into Chart.js datasets,
lines 69-119 of `RouteChart.tsx`.  Purely presentational constants that no
claim touches (point radii, fill, tension, background colors) are omitted;
the structural fields (type, label, data points, border color, draw order)
are kept. -/

/-- A plotted point.  Scatter points carry the source identifier for the
tooltip (`{x, y, id}`); line vertices carry only coordinates. -/
structure ChartPoint where
  x : JsNum
  y : JsNum
  id : Option Int
deriving DecidableEq

/-- The Chart.js dataset type tag used by the component. -/
inductive DatasetType where
  | scatter : DatasetType
  | line : DatasetType
deriving DecidableEq

/-- One Chart.js dataset as the component builds it. -/
structure Dataset where
  dtype : DatasetType
  label : String
  data : List ChartPoint
  borderColor : String
  order : Nat
deriving DecidableEq

/-- The fixed route color palette (`routeColors` in `RouteChart.tsx`). -/
def routeColors : List String :=
  ["#FF6384", "#36A2EB", "#FFCE56", "#4BC0C0", "#9966FF",
   "#FF9F40", "#FFCD56", "#C9CBCF", "#3FC77D", "#E751D8",
   "#F44336", "#2196F3", "#FFEB3B", "#00BCD4", "#673AB7"]

/-- A non-depot delivery as a scatter point, keeping its id for tooltips
(`.map((d) => ({x: d.x, y: d.y, id: d.id}))`). -/
def mkDeliveryPoint (d : Delivery) : ChartPoint :=
  { x := .val d.x, y := .val d.y, id := some d.id }

/-- `deliveries.filter((d) => d?.id !== 0).map(...)`. -/
def deliveryPointsData (deliveries : List Delivery) : List ChartPoint :=
  (deliveries.filter (fun d => d.id != 0)).map mkDeliveryPoint

/-- `deliveries.find((d) => d?.id === 0)`. -/
def depotPoint? (deliveries : List Delivery) : Option Delivery :=
  deliveries.find? (fun d => d.id == 0)

/-- The "Delivery Locations" scatter dataset. -/
def deliveryLocationsDataset (deliveries : List Delivery) : Dataset :=
  { dtype := .scatter
    label := "Delivery Locations"
    data := deliveryPointsData deliveries
    borderColor := "rgba(75, 192, 192, 1)"
    order := 2 }

/-- The depot scatter dataset, emitted only when a depot exists. -/
def depotDataset (depot : Delivery) : Dataset :=
  { dtype := .scatter
    label := "Depot (ID: 0)"
    data := [{ x := .val depot.x, y := .val depot.y, id := some 0 }]
    borderColor := "rgba(255, 99, 132, 1)"
    order := 3 }

/-- One route vertex: `p ? { x: p.x, y: p.y } : { x: NaN, y: NaN }`. -/
def mkRouteVertex (p : Option Delivery) : ChartPoint :=
  match p with
  | some p => { x := .val p.x, y := .val p.y, id := none }
  | none => { x := .nan, y := .nan, id := none }

/-- `route.routePoints.map((p) => p ? {x: p.x, y: p.y} : {x: NaN, y: NaN})`. -/
def routeLineData (pts : List (Option Delivery)) : List ChartPoint :=
  pts.map mkRouteVertex

/-- The line dataset for the driver route at position `index` of the
input list; `borderColor: routeColors[index % routeColors.length]`. -/
def mkLineDataset (index : Nat) (route : DriverRoute) : Dataset :=
  { dtype := .line
    label := "Driver " ++ toString route.driverId
    data := routeLineData route.routePoints
    borderColor := routeColors.getD (index % routeColors.length) ""
    order := 1 }

/-- The `driverRoutes.forEach((route, index) => ...)` loop: a route
contributes one line dataset exactly when `routePoints.length > 0`,
and the palette index advances with the list position either way. -/
def lineDatasetsAux (index : Nat) : List DriverRoute → List Dataset
  | [] => []
  | r :: rs =>
    (if 0 < r.routePoints.length then [mkLineDataset index r] else []) ++
      lineDatasetsAux (index + 1) rs

/-- All line datasets of a route list. -/
def lineDatasets (driverRoutes : List DriverRoute) : List Dataset :=
  lineDatasetsAux 0 driverRoutes

/-- The complete dataset list the component hands to Chart.js: the
delivery scatter layer, then the depot layer when a depot exists, then
one line layer per non-degenerate driver route. -/
def buildDatasets (deliveries : List Delivery) (driverRoutes : List DriverRoute) :
    List Dataset :=
  [deliveryLocationsDataset deliveries] ++
    (match depotPoint? deliveries with
     | some depot => [depotDataset depot]
     | none => []) ++
    lineDatasets driverRoutes

/-! ## Tooltip resolution (`RouteChart.tsx` lines 178-209) -/

/-- The `(datasetIndex, dataIndex)` pair Chart.js passes to the tooltip
callbacks. -/
structure TooltipItemRef where
  datasetIndex : Nat
  dataIndex : Nat
deriving DecidableEq

/-- How JavaScript template interpolation renders a possibly-missing
identifier: a missing `id` prints as `undefined`. -/
def renderJsId (id : Option Int) : String :=
  match id with
  | some n => toString n
  | none => "undefined"

/-- The tooltip `title` callback.  Faithful to the source: a scatter
dataset with a resolvable point titles `"Depot"` for identifier 0 and
`"Point #" ++ id` otherwise (a missing identifier is interpolated as
`undefined`); a line dataset reports the first driver route whose
`"Driver " ++ id` tag occurs in the dataset label
(`dataset.label?.includes(...)`); everything else falls back to
`dataset?.label || ""`.  The function is total: no input throws. -/
def tooltipTitle (datasets : List Dataset) (driverRoutes : List DriverRoute)
    (tooltipItems : List TooltipItemRef) : String :=
  match tooltipItems.head? with
  | none => ""
  | some item =>
    match datasets[item.datasetIndex]? with
    | none => ""
    | some ds =>
      match ds.dtype with
      | .scatter =>
        match ds.data[item.dataIndex]? with
        | some p =>
          if p.id = some 0 then "Depot" else "Point #" ++ renderJsId p.id
        | none => ds.label
      | .line =>
        match driverRoutes.find?
            (fun dr => strIncludes ds.label ("Driver " ++ toString dr.driverId)) with
        | some dr =>
          "Driver " ++ toString dr.driverId ++ " (Dist: " ++
            ratToFixed 1 dr.distance ++ " m)"
        | none => ds.label

/-! ## Progress-log reconciliation (`src/app/page.tsx` lines 66-86)

The `connection.on("ReceiveMessage")` handler: stamp the incoming update
with a capture-time timestamp; when it carries `clearPreviousProgress`
and has style `"progress"`, replace the most recent `"progress"`-styled
entry in place if one exists; otherwise append. -/

/-- `{ ...update, timestamp: Date.now() }`. -/
def stampTimestamp (update : ProgressUpdate) (now : Nat) : ProgressUpdate :=
  { update with timestamp := some now }

/-- `Array.prototype.findIndex`, with `-1` rendered as `none`. -/
def findIdxOpt (p : α → Bool) : List α → Option Nat
  | [] => none
  | a :: l => if p a then some 0 else (findIdxOpt p l).map (· + 1)

/-- `prevLogs.slice().reverse().findIndex((log) => log.style === "progress")`
followed by `prevLogs.length - 1 - lastProgressIndex`: the index of the
most recent progress-styled entry, if any. -/
def lastProgressIndex? (logs : List ProgressUpdate) : Option Nat :=
  (findIdxOpt (fun log => log.style == "progress") logs.reverse).map
    (fun i => logs.length - 1 - i)

/-- The `ReceiveMessage` handler body acting on the current log. -/
def receiveMessage (prevLogs : List ProgressUpdate) (update : ProgressUpdate)
    (now : Nat) : List ProgressUpdate :=
  let m := stampTimestamp update now
  if m.clearPreviousProgress && m.style == "progress" then
    match lastProgressIndex? prevLogs with
    | some i => prevLogs.set i m
    | none => prevLogs ++ [m]
  else prevLogs ++ [m]

/-! ## Form input handling (`page.tsx` lines 107-119) -/

/-- `handleInputChange` for the integer (count) fields, after `parseInt`:
a non-parsable input (`NaN`, here `none`) is replaced by
`minVal > 0 ? minVal : 0`, then the result is clamped from below by
`Math.max(minVal, value)`.  The count fields are wired with
`handleInputChange(setter, 1)`, i.e. `minVal = 1`. -/
def handleInputChange (minVal : Int) (parsed : Option Int) : Int :=
  let value : Int :=
    match parsed with
    | none => if 0 < minVal then minVal else 0
    | some raw => raw
  max minVal value

/-! ## Pre-network submission logic (`page.tsx` lines 121-182) -/

/-- The inline error for nonpositive counts. -/
def countErrorMsg : String :=
  "Number of deliveries and drivers must be positive integers."

/-- The inline error for a non-increasing coordinate range. -/
def coordErrorMsg : String :=
  "Minimum coordinate (meters) must be less than the maximum coordinate."

/-- The configuration error for a missing API URL. -/
def apiUrlErrorMsg : String :=
  "Critical Error: API URL is not defined (NEXT_PUBLIC_API_URL)."

/-- The page state a submission manipulates before any network call. -/
structure SubmitState where
  isLoading : Bool
  error : Option String
  results : Option OptimizationResult
  logMessages : List ProgressUpdate
deriving DecidableEq

/-- Outcome of the pre-network part of `handleSubmit`: the state after
the synchronous updates, and the request body iff `fetch` is reached. -/
structure SubmitOutcome where
  state : SubmitState
  request : Option OptimizationRequestData
deriving DecidableEq

/-- The page state right after the synchronous opening of `handleSubmit`
(loading set, error/results/logs cleared) and the hub-connectivity
warning: a disconnected hub appends one error-styled log entry. -/
def submitBaseState (hubConnected : Bool) (now : Nat) : SubmitState :=
  if hubConnected then
    { isLoading := true, error := none, results := none, logMessages := [] }
  else
    { isLoading := true, error := none, results := none
      logMessages :=
        [{ message := "SignalR not connected. Real-time logs unavailable."
           style := "error"
           timestamp := some now }] }

/-- `handleSubmit` up to (and excluding) the `fetch` call: set loading,
clear error/results/logs, warn when the hub is not connected, validate
the counts and the coordinate range, then check the API URL.  A `some`
request means the HTTP call is issued. -/
def handleSubmitPre (numDeliveries numDrivers : Int) (minCoord maxCoord : ℚ)
    (hubConnected : Bool) (apiUrl : Option String) (now : Nat) : SubmitOutcome :=
  if numDeliveries ≤ 0 ∨ numDrivers ≤ 0 then
    { state := { submitBaseState hubConnected now with
                 error := some countErrorMsg, isLoading := false }
      request := none }
  else if minCoord ≥ maxCoord then
    { state := { submitBaseState hubConnected now with
                 error := some coordErrorMsg, isLoading := false }
      request := none }
  else
    match apiUrl with
    | none =>
      { state := { submitBaseState hubConnected now with
                   error := some apiUrlErrorMsg, isLoading := false }
        request := none }
    | some _ =>
      { state := submitBaseState hubConnected now
        request := some
          { numberOfDeliveries := numDeliveries
            numberOfDrivers := numDrivers
            minCoordinate := minCoord
            maxCoordinate := maxCoord } }

/-! ## Result rendering (`page.tsx`, final revision) -/

/-- `getTotalDistance()`: pick the displayed total distance by the best
method label; `none` models the JavaScript `undefined`. -/
def getTotalDistance (results : Option OptimizationResult) : Option JsNum :=
  match results with
  | none => some .nan
  | some r =>
    if strIncludes r.bestMethod "NN" then some (.val r.optimizedDistanceNN)
    else if strIncludes r.bestMethod "CWS" then r.optimizedDistanceCWS.map .val
    else some (.val (r.optimizedDistanceCWS.getD r.optimizedDistanceNN))

/-- `formatDistance` (final revision): `"N/A"` for `NaN`, meters with one
decimal below 1000, kilometers with two decimals otherwise. -/
def formatDistance (meters : JsNum) : String :=
  match meters with
  | .nan => "N/A"
  | .val q =>
    if (if q < 0 then -q else q) < 1000 then ratToFixed 1 q ++ " m"
    else ratToFixed 2 (q / 1000) ++ " km"

/-- The value string of the "Total Distance Covered" stat card:
`` `${getTotalDistance().toFixed(1)} m (${formatDistance(getTotalDistance())})` ``.
`none` models the render throwing on an `undefined` distance (never the
case for an "NN" result). -/
def totalDistanceStatValue (results : OptimizationResult) : Option String :=
  (getTotalDistance (some results)).map
    (fun d => jsToFixed 1 d ++ " m (" ++ formatDistance d ++ ")")

/-- The stop-sequence line of the driver detail card (final revision):
`` 0 → {route.deliveryIds?.join(" → ") ?? "N/A"} → 0 ``. -/
def routeSequence (route : DriverRoute) : String :=
  "0 → " ++ String.intercalate " → " (route.deliveryIds.map toString) ++ " → 0"

/-! ## Concrete fixtures for the scenario theorems -/

/-- The value `123.4` as a normalized rational, so that the kernel can
evaluate with it. -/
def q1234 : ℚ := ⟨617, 5, by decide, by decide⟩

/-- An existing progress-styled log entry. -/
def wProgress : ProgressUpdate := { message := "working 1/3", style := "progress" }

/-- An existing info-styled log entry. -/
def wInfo : ProgressUpdate := { message := "generated", style := "info" }

/-- An incoming replace-flagged progress notification. -/
def wIncoming : ProgressUpdate :=
  { message := "working 2/3", style := "progress", clearPreviousProgress := true }

/-- A single non-depot delivery. -/
def d5 : Delivery := { id := 5, x := 1, y := 2 }

/-- The depot delivery of the chart-projection scenario. -/
def dDepot : Delivery := { id := 0, x := 0, y := 0 }

/-- Non-depot delivery `{id: 1, x: 1, y: 1}`. -/
def dOne : Delivery := { id := 1, x := 1, y := 1 }

/-- Non-depot delivery `{id: 2, x: 2, y: 2}`. -/
def dTwo : Delivery := { id := 2, x := 2, y := 2 }

/-- A driver route with three points. -/
def rThree : DriverRoute :=
  { driverId := 1, routePoints := [some dDepot, some dOne, some dTwo]
    deliveryIds := [1, 2], distance := 4, originalIndices := [] }

/-- A driver route with zero points. -/
def rZero : DriverRoute :=
  { driverId := 2, routePoints := [], deliveryIds := []
    distance := 0, originalIndices := [] }

/-- A route whose point sequence has a missing (null) entry. -/
def rGap : DriverRoute :=
  { driverId := 3, routePoints := [some dOne, none, some dTwo]
    deliveryIds := [1, 2], distance := 4, originalIndices := [] }

/-- Driver 1, whose `"Driver 1"` tag is a substring of `"Driver 12"`. -/
def drvA : DriverRoute :=
  { driverId := 1, routePoints := [some d5], deliveryIds := [5]
    distance := 7, originalIndices := [] }

/-- Driver 12, shadowed by driver 1 in the tooltip label lookup. -/
def drvB : DriverRoute :=
  { driverId := 12, routePoints := [some d5], deliveryIds := [5]
    distance := 9, originalIndices := [] }

/-- Driver 1's route with only the driver identifier changed, for the
color-noninterference witness. -/
def drvA99 : DriverRoute :=
  { driverId := 99, routePoints := [some d5], deliveryIds := [5]
    distance := 7, originalIndices := [] }

/-- A scatter dataset holding one plotted point without an identifier. -/
def noIdScatterDataset : Dataset :=
  { dtype := .scatter, label := "Delivery Locations"
    data := [{ x := .val 1, y := .val 2, id := none }]
    borderColor := "rgba(75, 192, 192, 1)", order := 2 }

/-- The driver route of the end-to-end rendering scenario:
`{driverId: 1, deliveryIds: [2, 3], distance: 123.4}`. -/
def route3 : DriverRoute :=
  { driverId := 1, routePoints := [some dDepot, some dTwo]
    deliveryIds := [2, 3], distance := q1234, originalIndices := [] }

/-- The received result of the end-to-end rendering scenario:
`bestMethod = "NN"`, `optimizedDistanceNN = 123.4`, one driver route. -/
def res3 : OptimizationResult :=
  { bestMethod := "NN"
    generatedDeliveries := [dDepot, dTwo]
    optimizedRoute := []
    bestCutIndices := none
    minMakespan := q1234
    driverRoutes := [route3]
    initialDistanceNN := 150
    optimizedDistanceNN := q1234
    initialDistanceGI := 150
    optimizedDistanceGI := 130
    combinationsCheckedNN := 10
    combinationsCheckedGI := 10
    errorMessage := none
    totalExecutionTimeMs := 42 }

/-! ## Helper lemmas -/

/-- `q1234` is the rational `123.4`. -/
theorem q1234_eq_ofScientific : q1234 = (123.4 : ℚ) := by
  rw [q1234, Rat.mk'_eq_divInt, Rat.divInt_eq_div]
  norm_num

/-- `findIdxOpt` finds nothing iff the predicate holds nowhere. -/
theorem findIdxOpt_eq_none_iff (p : α → Bool) (l : List α) :
    findIdxOpt p l = none ↔ ∀ a ∈ l, p a = false := by
  induction l with
  | nil => simp [findIdxOpt]
  | cons a l ih =>
    by_cases h : p a
    · simp [findIdxOpt, h]
    · simp only [findIdxOpt, if_neg h, Option.map_eq_none', ih, List.mem_cons]
      constructor
      · intro hall b hb
        rcases hb with rfl | hb
        · simpa using h
        · exact hall b hb
      · intro hall b hb
        exact hall b (Or.inr hb)

/-- A hit of `findIdxOpt` is a first hit: the element at the returned
index satisfies the predicate and no earlier element does. -/
theorem findIdxOpt_eq_some (p : α → Bool) (l : List α) (i : Nat)
    (h : findIdxOpt p l = some i) :
    ∃ a, l[i]? = some a ∧ p a = true ∧
      ∀ j b, j < i → l[j]? = some b → p b = false := by
  induction l generalizing i with
  | nil => simp [findIdxOpt] at h
  | cons a l ih =>
    by_cases hp : p a
    · simp only [findIdxOpt, hp, if_pos] at h
      cases h
      exact ⟨a, by simp, hp, fun j b hj _ => absurd hj (Nat.not_lt_zero j)⟩
    · simp only [findIdxOpt, hp, if_neg, Bool.false_eq_true, not_false_iff,
        Option.map_eq_some'] at h
      obtain ⟨i', hi', rfl⟩ := h
      obtain ⟨b, hb, hpb, hmin⟩ := ih i' hi'
      refine ⟨b, by simpa using hb, hpb, ?_⟩
      intro j c hj hc
      match j with
      | 0 =>
        simp only [List.getElem?_cons_zero, Option.some.injEq] at hc
        subst hc
        simpa using hp
      | j + 1 =>
        simp only [List.getElem?_cons_succ] at hc
        exact hmin j c (by omega) hc

/-- No most-recent progress entry means no progress entry at all. -/
theorem lastProgressIndex?_eq_none_iff (logs : List ProgressUpdate) :
    lastProgressIndex? logs = none ↔ ∀ e ∈ logs, e.style ≠ "progress" := by
  unfold lastProgressIndex?
  rw [Option.map_eq_none', findIdxOpt_eq_none_iff]
  constructor
  · intro h e he
    have := h e (List.mem_reverse.mpr he)
    simpa using this
  · intro h e he
    have := h e (List.mem_reverse.mp he)
    simpa using this

/-- A most-recent progress index points at a progress-styled entry with
no progress-styled entry after it. -/
theorem lastProgressIndex?_spec (logs : List ProgressUpdate) (k : Nat)
    (h : lastProgressIndex? logs = some k) :
    k < logs.length ∧
    (∃ e, logs[k]? = some e ∧ e.style = "progress") ∧
    ∀ j e, k < j → logs[j]? = some e → e.style ≠ "progress" := by
  unfold lastProgressIndex? at h
  rw [Option.map_eq_some'] at h
  obtain ⟨i, hi, hk⟩ := h
  obtain ⟨a, ha, hpa, hmin⟩ := findIdxOpt_eq_some _ _ _ hi
  have hilen : i < logs.length := by
    have := List.getElem?_eq_some_iff.mp ha
    simpa using this.1
  have hrev : logs.reverse[i]? = logs[logs.length - 1 - i]? :=
    List.getElem?_reverse (by simpa using hilen)
  subst hk
  refine ⟨by omega, ⟨a, by rw [← hrev]; exact ha, by simpa using hpa⟩, ?_⟩
  intro j e hkj hj
  have hjlen : j < logs.length := by
    have := List.getElem?_eq_some_iff.mp hj
    simpa using this.1
  have hj' : logs.length - 1 - j < i := by omega
  have hrev' : logs.reverse[logs.length - 1 - j]? = logs[j]? := by
    rw [List.getElem?_reverse (by simpa using (by omega : logs.length - 1 - j < logs.length))]
    congr 1
    omega
  have := hmin (logs.length - 1 - j) e hj' (by rw [hrev']; exact hj)
  simpa using this

/-- The `ReceiveMessage` condition evaluates from the incoming update's
own fields, unchanged by the timestamp stamp. -/
theorem receiveMessage_cond_true (update : ProgressUpdate) (now : Nat)
    (hflag : update.clearPreviousProgress = true)
    (hstyle : update.style = "progress") :
    ((stampTimestamp update now).clearPreviousProgress &&
      ((stampTimestamp update now).style == "progress")) = true := by
  simp [stampTimestamp, hflag, hstyle]

/-- The base submission state never carries a validation error. -/
theorem submitBaseState_error (hub : Bool) (now : Nat) :
    (submitBaseState hub now).error = none := by
  cases hub <;> rfl

/-- The base submission state holds no results. -/
theorem submitBaseState_results (hub : Bool) (now : Nat) :
    (submitBaseState hub now).results = none := by
  cases hub <;> rfl

/-! ## Claim theorems -/

/-- **C1** (log reconciliation append contract).  For every current log
and incoming notification: the log holds a progress-styled entry exactly
when the scan finds a most-recent progress index; when the notification
carries the replace-previous flag, has style `"progress"`, and the scan
finds index `i`, the handler replaces position `i` — which held the most
recent progress-styled entry — in place, keeping the length and every
other position unchanged; in every other case (flag absent, style not
`"progress"`, or no prior progress entry) the stamped notification is
appended at the end and the length grows by exactly one. -/
theorem log_reconciliation_append_contract (logs : List ProgressUpdate)
    (update : ProgressUpdate) (now : Nat) :
    ((∃ e ∈ logs, e.style = "progress") ↔ (lastProgressIndex? logs).isSome) ∧
    (∀ i, update.clearPreviousProgress = true → update.style = "progress" →
      lastProgressIndex? logs = some i →
      i < logs.length ∧
      (∃ e, logs[i]? = some e ∧ e.style = "progress") ∧
      (∀ j e, i < j → logs[j]? = some e → e.style ≠ "progress") ∧
      receiveMessage logs update now = logs.set i (stampTimestamp update now) ∧
      (receiveMessage logs update now).length = logs.length ∧
      (receiveMessage logs update now)[i]? = some (stampTimestamp update now) ∧
      (∀ j, j ≠ i → (receiveMessage logs update now)[j]? = logs[j]?)) ∧
    ((update.clearPreviousProgress = false ∨ update.style ≠ "progress" ∨
        lastProgressIndex? logs = none) →
      receiveMessage logs update now = logs ++ [stampTimestamp update now] ∧
      (receiveMessage logs update now).length = logs.length + 1) := by
  refine ⟨?_, ?_, ?_⟩
  · rw [Option.isSome_iff_ne_none]
    constructor
    · rintro ⟨e, he, hs⟩ hnone
      exact (lastProgressIndex?_eq_none_iff logs).mp hnone e he hs
    · intro hne
      by_contra hno
      push_neg at hno
      exact hne ((lastProgressIndex?_eq_none_iff logs).mpr hno)
  · intro i hflag hstyle hidx
    obtain ⟨hilen, hent, hlater⟩ := lastProgressIndex?_spec logs i hidx
    have hrm : receiveMessage logs update now =
        logs.set i (stampTimestamp update now) := by
      unfold receiveMessage
      rw [if_pos (receiveMessage_cond_true update now hflag hstyle), hidx]
    refine ⟨hilen, hent, hlater, hrm, ?_, ?_, ?_⟩
    · rw [hrm, List.length_set]
    · rw [hrm]
      exact List.getElem?_set_self hilen
    · intro j hj
      rw [hrm]
      exact List.getElem?_set_ne (fun h => hj h.symm)
  · intro h
    have happ : receiveMessage logs update now =
        logs ++ [stampTimestamp update now] := by
      unfold receiveMessage
      rcases h with hflag | hstyle | hnone
      · rw [if_neg]
        simp [stampTimestamp, hflag]
      · rw [if_neg]
        simp [stampTimestamp]
        intro _
        exact hstyle
      · by_cases hc : ((stampTimestamp update now).clearPreviousProgress &&
            ((stampTimestamp update now).style == "progress")) = true
        · rw [if_pos hc, hnone]
        · rw [if_neg hc]
    exact ⟨happ, by rw [happ]; simp⟩

/-- **C1 witness**: on the log `[progress, info]`, a replace-flagged
progress notification replaces position 0 in place. -/
theorem log_reconciliation_append_contract_witness :
    receiveMessage [wProgress, wInfo] wIncoming 7 =
      [wProgress, wInfo].set 0 (stampTimestamp wIncoming 7) :=
  ((log_reconciliation_append_contract [wProgress, wInfo] wIncoming 7).2.1
    0 rfl rfl (by decide)).2.2.2.1

/-- **C10** (frame property of log capture).  For every incoming
notification, the stored entry is the incoming notification with only
its timestamp overwritten to the capture time — message, style, step,
data and the replace-previous flag are unchanged — and the handler
either appends it (leaving all existing positions untouched) or writes
it over exactly one existing position (leaving every other position
untouched). -/
theorem log_capture_frame (logs : List ProgressUpdate)
    (update : ProgressUpdate) (now : Nat) :
    (stampTimestamp update now).message = update.message ∧
    (stampTimestamp update now).style = update.style ∧
    (stampTimestamp update now).step = update.step ∧
    (stampTimestamp update now).data = update.data ∧
    (stampTimestamp update now).clearPreviousProgress =
      update.clearPreviousProgress ∧
    (stampTimestamp update now).timestamp = some now ∧
    ((receiveMessage logs update now = logs ++ [stampTimestamp update now] ∧
      ∀ j, j < logs.length → (receiveMessage logs update now)[j]? = logs[j]?) ∨
     (∃ i, i < logs.length ∧
       receiveMessage logs update now = logs.set i (stampTimestamp update now) ∧
       ∀ j, j ≠ i → (receiveMessage logs update now)[j]? = logs[j]?)) := by
  refine ⟨rfl, rfl, rfl, rfl, rfl, rfl, ?_⟩
  unfold receiveMessage
  by_cases hc : ((stampTimestamp update now).clearPreviousProgress &&
      ((stampTimestamp update now).style == "progress")) = true
  · rw [if_pos hc]
    cases hidx : lastProgressIndex? logs with
    | none =>
      left
      exact ⟨rfl, fun j hj => List.getElem?_append_left hj⟩
    | some i =>
      right
      obtain ⟨hilen, _, _⟩ := lastProgressIndex?_spec logs i hidx
      exact ⟨i, hilen, rfl, fun j hj => List.getElem?_set_ne (fun h => hj h.symm)⟩
  · rw [if_neg hc]
    left
    exact ⟨rfl, fun j hj => List.getElem?_append_left hj⟩

/-- **C10 witness**: the stored entry of a concrete capture carries the
capture time. -/
theorem log_capture_frame_witness :
    (stampTimestamp wIncoming 3).timestamp = some 3 :=
  (log_capture_frame [] wIncoming 3).2.2.2.2.2.1

/-- **C3** (end-to-end rendering of a result).  For the received result
with `bestMethod = "NN"`, `optimizedDistanceNN = 123.4` and the single
driver route `{driverId: 1, deliveryIds: [2, 3], distance: 123.4}`, the
total-distance summary stat displays the value `123.4` (as
`"123.4 m (123.4 m)"`) and the driver detail card's stop sequence reads
`"0 → 2 → 3 → 0"`. -/
theorem end_to_end_result_rendering :
    res3.bestMethod = "NN" ∧
    res3.optimizedDistanceNN = (123.4 : ℚ) ∧
    res3.driverRoutes = [route3] ∧
    route3.driverId = 1 ∧
    route3.deliveryIds = [2, 3] ∧
    route3.distance = (123.4 : ℚ) ∧
    totalDistanceStatValue res3 = some "123.4 m (123.4 m)" ∧
    routeSequence route3 = "0 → 2 → 3 → 0" := by
  refine ⟨rfl, q1234_eq_ofScientific, rfl, rfl, rfl, q1234_eq_ofScientific,
    by decide, by decide⟩

/-- **C5** (depot partition of the chart projection).  For every delivery
set holding a depot (identifier 0) and at least one other delivery, and
no driver routes, the projection emits exactly one depot marker layer —
holding only the identifier-0 point — and exactly one delivery-marker
layer holding all and only the non-depot deliveries; the depot point is
excluded from the delivery-marker layer. -/
theorem chart_depot_partition (deliveries : List Delivery)
    (h0 : (depotPoint? deliveries).isSome)
    (h1 : ∃ d ∈ deliveries, d.id ≠ 0) :
    ∃ d0, depotPoint? deliveries = some d0 ∧ d0.id = 0 ∧
      buildDatasets deliveries [] =
        [deliveryLocationsDataset deliveries, depotDataset d0] ∧
      (depotDataset d0).data =
        [{ x := .val d0.x, y := .val d0.y, id := some 0 }] ∧
      ((buildDatasets deliveries []).filter
        (fun ds => ds.label == "Depot (ID: 0)")).length = 1 ∧
      ((buildDatasets deliveries []).filter
        (fun ds => ds.label == "Delivery Locations")).length = 1 ∧
      (deliveryLocationsDataset deliveries).data =
        (deliveries.filter (fun d => d.id != 0)).map mkDeliveryPoint ∧
      (deliveryLocationsDataset deliveries).data ≠ [] ∧
      (∀ p ∈ (deliveryLocationsDataset deliveries).data, p.id ≠ some 0) ∧
      (∀ d ∈ deliveries, d.id ≠ 0 →
        mkDeliveryPoint d ∈ (deliveryLocationsDataset deliveries).data) := by
  obtain ⟨d0, hd0⟩ := Option.isSome_iff_exists.mp h0
  have hid0 : d0.id = 0 := by
    have := List.find?_some hd0
    simpa using this
  have hbuild : buildDatasets deliveries [] =
      [deliveryLocationsDataset deliveries, depotDataset d0] := by
    unfold buildDatasets
    rw [hd0]
    rfl
  have hdata : (deliveryLocationsDataset deliveries).data =
      (deliveries.filter (fun d => d.id != 0)).map mkDeliveryPoint := rfl
  refine ⟨d0, hd0, hid0, hbuild, rfl, ?_, ?_, hdata, ?_, ?_, ?_⟩
  · rw [hbuild]
    simp [List.filter_cons, deliveryLocationsDataset, depotDataset]
  · rw [hbuild]
    simp [List.filter_cons, deliveryLocationsDataset, depotDataset]
  · obtain ⟨d, hd, hdne⟩ := h1
    have : mkDeliveryPoint d ∈ (deliveryLocationsDataset deliveries).data := by
      rw [hdata]
      exact List.mem_map_of_mem _
        (List.mem_filter.mpr ⟨hd, by simpa using hdne⟩)
    exact List.ne_nil_of_mem this
  · intro p hp
    rw [hdata] at hp
    obtain ⟨d, hd, rfl⟩ := List.mem_map.mp hp
    have := (List.mem_filter.mp hd).2
    have hne : d.id ≠ 0 := by simpa using this
    simp [mkDeliveryPoint, hne]
  · intro d hd hne
    rw [hdata]
    exact List.mem_map_of_mem _ (List.mem_filter.mpr ⟨hd, by simpa using hne⟩)

/-- **C5 witness**: for deliveries `{0,1,2}` and no routes, the dataset
list is exactly the delivery layer followed by the depot layer. -/
theorem chart_depot_partition_witness :
    buildDatasets [dDepot, dOne, dTwo] [] =
      [deliveryLocationsDataset [dDepot, dOne, dTwo], depotDataset dDepot] := by
  obtain ⟨d0, hd0, _, hds, _⟩ :=
    chart_depot_partition [dDepot, dOne, dTwo] (by decide)
      ⟨dOne, by decide, by decide⟩
  have hfind : depotPoint? [dDepot, dOne, dTwo] = some dDepot := by decide
  rw [hfind] at hd0
  rw [← Option.some_inj.mp hd0] at hds
  exact hds

/-- The `forEach` loop emits one line dataset per route with a non-empty
point sequence, regardless of the starting palette index. -/
theorem lineDatasetsAux_length (idx : Nat) (routes : List DriverRoute) :
    (lineDatasetsAux idx routes).length =
      (routes.filter (fun r => decide (0 < r.routePoints.length))).length := by
  induction routes generalizing idx with
  | nil => rfl
  | cons r rs ih =>
    by_cases h : 0 < r.routePoints.length
    · simp [lineDatasetsAux, h, List.filter_cons, ih]
    · simp [lineDatasetsAux, h, List.filter_cons, ih]

/-- **C6** (degenerate route policy).  A route with an empty point
sequence produces no line layer and every route with more than zero
points produces exactly one, so the number of line layers equals the
number of routes with a non-empty point sequence; in particular two
routes with respectively 3 and 0 points yield exactly one line layer. -/
theorem degenerate_route_policy (routes : List DriverRoute) :
    (lineDatasets routes).length =
      (routes.filter (fun r => decide (0 < r.routePoints.length))).length ∧
    ∀ rA rB, rA.routePoints.length = 3 → rB.routePoints.length = 0 →
      (lineDatasets [rA, rB]).length = 1 := by
  refine ⟨lineDatasetsAux_length 0 routes, ?_⟩
  intro rA rB hA hB
  show (lineDatasetsAux 0 [rA, rB]).length = 1
  rw [lineDatasetsAux_length]
  simp [List.filter_cons, hA, hB]

/-- **C6 witness**: the routes with 3 and 0 points yield one line layer. -/
theorem degenerate_route_policy_witness :
    (lineDatasets [rThree, rZero]).length = 1 :=
  (degenerate_route_policy [rThree, rZero]).2 rThree rZero rfl rfl

/-- The border colors of the emitted line datasets depend only on the
positions and emptiness pattern of the routes, not on any other field. -/
theorem lineDatasetsAux_map_borderColor (idx : Nat)
    (routes routes' : List DriverRoute)
    (h : routes.map (fun r => r.routePoints) =
      routes'.map (fun r => r.routePoints)) :
    (lineDatasetsAux idx routes).map (fun ds => ds.borderColor) =
      (lineDatasetsAux idx routes').map (fun ds => ds.borderColor) := by
  induction routes generalizing routes' idx with
  | nil =>
    cases routes' with
    | nil => rfl
    | cons r' rs' => simp at h
  | cons r rs ih =>
    cases routes' with
    | nil => simp at h
    | cons r' rs' =>
      simp only [List.map_cons, List.cons.injEq] at h
      obtain ⟨hp, hrest⟩ := h
      by_cases hne : 0 < r.routePoints.length
      · have hne' : 0 < r'.routePoints.length := by rw [← hp]; exact hne
        simp [lineDatasetsAux, hne, hne', mkLineDataset, ih _ _ hrest]
      · have hne' : ¬ 0 < r'.routePoints.length := by rw [← hp]; exact hne
        simp [lineDatasetsAux, hne, hne', ih _ _ hrest]

/-- A non-degenerate route at position `i` contributes its line dataset,
with the palette index shifted by the starting index. -/
theorem mkLineDataset_mem_lineDatasetsAux (idx i : Nat)
    (routes : List DriverRoute) (r : DriverRoute)
    (hr : routes[i]? = some r) (hne : 0 < r.routePoints.length) :
    mkLineDataset (idx + i) r ∈ lineDatasetsAux idx routes := by
  induction routes generalizing idx i with
  | nil => simp at hr
  | cons a rs ih =>
    match i with
    | 0 =>
      simp only [List.getElem?_cons_zero, Option.some.injEq] at hr
      subst hr
      simp [lineDatasetsAux, hne]
    | i + 1 =>
      simp only [List.getElem?_cons_succ] at hr
      have hmem := ih (idx + 1) i hr
      have harith : idx + (i + 1) = (idx + 1) + i := by omega
      rw [harith]
      simp only [lineDatasetsAux]
      exact List.mem_append_right _ hmem

/-- **C7** (deterministic position-based color assignment).  The border
colors of the line layers depend only on the route positions (changing
the driver identifiers changes no color); the route at position `i`,
when rendered, receives palette color `i % routeColors.length` and its
layer is among the emitted line layers; the route at position 0, when
rendered, always receives the first palette color. -/
theorem route_color_position_determinism (routes routes' : List DriverRoute)
    (h : routes.map (fun r => r.routePoints) =
      routes'.map (fun r => r.routePoints)) :
    ((lineDatasets routes).map (fun ds => ds.borderColor) =
      (lineDatasets routes').map (fun ds => ds.borderColor)) ∧
    (∀ i r, routes[i]? = some r → 0 < r.routePoints.length →
      (mkLineDataset i r).borderColor =
        routeColors.getD (i % routeColors.length) "" ∧
      mkLineDataset i r ∈ lineDatasets routes) ∧
    (∀ r, routes[0]? = some r → 0 < r.routePoints.length →
      (mkLineDataset 0 r).borderColor = "#FF6384") := by
  refine ⟨lineDatasetsAux_map_borderColor 0 routes routes' h, ?_, ?_⟩
  · intro i r hr hne
    refine ⟨rfl, ?_⟩
    have := mkLineDataset_mem_lineDatasetsAux 0 i routes r hr hne
    simpa [lineDatasets] using this
  · intro r _ _
    rfl

/-- **C7 witness**: replacing driver 1 by driver 99 (same route points)
yields the same color assignment. -/
theorem route_color_position_determinism_witness :
    (lineDatasets [drvA]).map (fun ds => ds.borderColor) =
      (lineDatasets [drvA99]).map (fun ds => ds.borderColor) :=
  (route_color_position_determinism [drvA] [drvA99] (by decide)).1

/-- **C8** (missing-point sentinel).  The vertex mapping of a rendered
line layer is total: a missing point entry becomes a vertex with
not-a-number coordinates (which differ from the origin's), a present
entry becomes a vertex with that point's own coordinates, the length is
preserved, and every line dataset's data is exactly this mapping. -/
theorem missing_point_nan_sentinel (pts : List (Option Delivery)) :
    (routeLineData pts).length = pts.length ∧
    (∀ i : Nat, pts[i]? = some none →
      (routeLineData pts)[i]? =
        some ({ x := .nan, y := .nan, id := none } : ChartPoint)) ∧
    (∀ (i : Nat) (p : Delivery), pts[i]? = some (some p) →
      (routeLineData pts)[i]? =
        some ({ x := .val p.x, y := .val p.y, id := none } : ChartPoint)) ∧
    (JsNum.nan ≠ JsNum.val 0) ∧
    (∀ idx r, (mkLineDataset idx r).data = routeLineData r.routePoints) := by
  refine ⟨by simp [routeLineData], ?_, ?_, by decide, fun _ _ => rfl⟩
  · intro i hi
    simp [routeLineData, hi, mkRouteVertex]
  · intro i p hi
    simp [routeLineData, hi, mkRouteVertex]

/-- **C8 witness**: the route with a missing middle entry renders it as
the `NaN` vertex. -/
theorem missing_point_nan_sentinel_witness :
    (routeLineData rGap.routePoints)[1]? =
      some ({ x := .nan, y := .nan, id := none } : ChartPoint) :=
  (missing_point_nan_sentinel rGap.routePoints).2.1 1 rfl

/-- **C2 amended** (tooltip resolution).  For every plotted point
resolved through the dataset list: on a scatter (marker) dataset the
title is `"Depot"` when the point's identifier is 0 and otherwise
`"Point #"` followed by the identifier — a missing identifier is
interpolated as `undefined` rather than replaced by a generic fallback;
on a line dataset the title reports the identifier and distance
(formatted to one decimal place) of the first driver route whose
`"Driver " ++ id` tag occurs as a substring of the dataset label, and
falls back to the dataset label when no route matches.  The resolution
is a total function, so it never throws. -/
theorem tooltip_title_resolution (datasets : List Dataset)
    (routes : List DriverRoute) (item : TooltipItemRef) (ds : Dataset)
    (hds : datasets[item.datasetIndex]? = some ds) :
    (∀ p, ds.dtype = DatasetType.scatter → ds.data[item.dataIndex]? = some p →
      tooltipTitle datasets routes [item] =
        if p.id = some 0 then "Depot" else "Point #" ++ renderJsId p.id) ∧
    (∀ dr, ds.dtype = DatasetType.line →
      routes.find?
        (fun r => strIncludes ds.label ("Driver " ++ toString r.driverId)) =
        some dr →
      tooltipTitle datasets routes [item] =
        "Driver " ++ toString dr.driverId ++ " (Dist: " ++
          ratToFixed 1 dr.distance ++ " m)") ∧
    (ds.dtype = DatasetType.line →
      routes.find?
        (fun r => strIncludes ds.label ("Driver " ++ toString r.driverId)) =
        none →
      tooltipTitle datasets routes [item] = ds.label) := by
  refine ⟨?_, ?_, ?_⟩
  · intro p hty hp
    unfold tooltipTitle
    simp only [List.head?_cons, hds, hty, hp]
  · intro dr hty hfind
    unfold tooltipTitle
    simp only [List.head?_cons, hds, hty, hfind]
  · intro hty hfind
    unfold tooltipTitle
    simp only [List.head?_cons, hds, hty, hfind]

/-- **C2 witness**: on the chart built from a depot and one delivery, the
depot layer's point is titled `"Depot"`. -/
theorem tooltip_title_resolution_witness :
    tooltipTitle (buildDatasets [dDepot, dOne] []) [] [⟨1, 0⟩] = "Depot" := by
  have h := (tooltip_title_resolution (buildDatasets [dDepot, dOne] []) []
    ⟨1, 0⟩ (depotDataset dDepot) (by decide)).1
    ({ x := .val 0, y := .val 0, id := some 0 } : ChartPoint) rfl (by decide)
  simpa using h

/-- **C2 counterexample**.  Two concrete inputs refute the claim as
stated.  First, a scatter point lacking an identifier is titled
`"Point #undefined"` — the identifier is interpolated, not replaced by a
generic fallback (it differs from the dataset label, the empty string,
and the `"Location"` fallback of the other source revision).  Second, on
the line layer of driver 12, the label lookup `label.includes("Driver " +
id)` finds driver 1 first, so the tooltip reports driver 1's identifier
and distance instead of driver 12's. -/
theorem tooltip_title_claim_counterexample :
    tooltipTitle [noIdScatterDataset] [] [⟨0, 0⟩] = "Point #undefined" ∧
    tooltipTitle [noIdScatterDataset] [] [⟨0, 0⟩] ≠ noIdScatterDataset.label ∧
    tooltipTitle [noIdScatterDataset] [] [⟨0, 0⟩] ≠ "" ∧
    tooltipTitle [noIdScatterDataset] [] [⟨0, 0⟩] ≠ "Location" ∧
    (buildDatasets [d5] [drvA, drvB])[2]? = some (mkLineDataset 1 drvB) ∧
    (mkLineDataset 1 drvB).label = "Driver 12" ∧
    drvA.driverId = 1 ∧
    drvB.driverId = 12 ∧
    tooltipTitle (buildDatasets [d5] [drvA, drvB]) [drvA, drvB] [⟨2, 0⟩] =
      "Driver 1 (Dist: 7.0 m)" ∧
    tooltipTitle (buildDatasets [d5] [drvA, drvB]) [drvA, drvB] [⟨2, 0⟩] ≠
      "Driver 12 (Dist: 9.0 m)" := by
  decide

/-- **C4** (pre-network validation).  For every submission with a
nonpositive delivery count, a nonpositive driver count, or a minimum
coordinate not below the maximum, the submission is rejected before any
network call: no request is issued, one of the two inline validation
errors is set, the loading flag is cleared, and the results stay
cleared. -/
theorem pre_network_validation (nd dr : Int) (minC maxC : ℚ) (hub : Bool)
    (url : Option String) (now : Nat)
    (h : nd ≤ 0 ∨ dr ≤ 0 ∨ minC ≥ maxC) :
    (handleSubmitPre nd dr minC maxC hub url now).request = none ∧
    ((handleSubmitPre nd dr minC maxC hub url now).state.error =
        some countErrorMsg ∨
      (handleSubmitPre nd dr minC maxC hub url now).state.error =
        some coordErrorMsg) ∧
    (handleSubmitPre nd dr minC maxC hub url now).state.isLoading = false ∧
    (handleSubmitPre nd dr minC maxC hub url now).state.results = none := by
  by_cases hc : nd ≤ 0 ∨ dr ≤ 0
  · unfold handleSubmitPre
    rw [if_pos hc]
    exact ⟨rfl, Or.inl rfl, rfl, submitBaseState_results hub now⟩
  · have hcoord : minC ≥ maxC := by
      rcases h with h | h | h
      · exact absurd (Or.inl h) hc
      · exact absurd (Or.inr h) hc
      · exact h
    unfold handleSubmitPre
    rw [if_neg hc, if_pos hcoord]
    exact ⟨rfl, Or.inr rfl, rfl, submitBaseState_results hub now⟩

/-- **C4 witness**: a submission with zero deliveries issues no request. -/
theorem pre_network_validation_witness :
    (handleSubmitPre 0 4 (-1000) 1000 true (some "api") 0).request = none :=
  (pre_network_validation 0 4 (-1000) 1000 true (some "api") 0
    (Or.inl (by decide))).1

/-- **C9** (implicit input-clamping invariant).  The count-field change
handler (minimum value 1) always stores a value of at least 1: a
non-parsable input is replaced by the minimum itself and a parsed value
is clamped to `max 1 value`; consequently two counts coming from this
handler never satisfy the nonpositive-count validation condition, and
the submission logic never sets the nonpositive-count error for them. -/
theorem count_input_clamping (p1 p2 : Option Int) :
    1 ≤ handleInputChange 1 p1 ∧
    (p1 = none → handleInputChange 1 p1 = 1) ∧
    (∀ v, p1 = some v → handleInputChange 1 p1 = max 1 v) ∧
    (¬ (handleInputChange 1 p1 ≤ 0 ∨ handleInputChange 1 p2 ≤ 0)) ∧
    ∀ (minC maxC : ℚ) (hub : Bool) (url : Option String) (now : Nat),
      (handleSubmitPre (handleInputChange 1 p1) (handleInputChange 1 p2)
        minC maxC hub url now).state.error ≠ some countErrorMsg := by
  have hone : ∀ p : Option Int, 1 ≤ handleInputChange 1 p := by
    intro p
    cases p with
    | none => simp [handleInputChange]
    | some v => simp [handleInputChange, le_max_left]
  have hcond : ¬ (handleInputChange 1 p1 ≤ 0 ∨ handleInputChange 1 p2 ≤ 0) := by
    rintro (h | h)
    · exact absurd (hone p1) (by omega)
    · exact absurd (hone p2) (by omega)
  refine ⟨hone p1, ?_, ?_, hcond, ?_⟩
  · intro h
    subst h
    rfl
  · intro v h
    subst h
    rfl
  · intro minC maxC hub url now
    unfold handleSubmitPre
    rw [if_neg hcond]
    by_cases h2 : minC ≥ maxC
    · rw [if_pos h2]
      intro hcontra
      have : coordErrorMsg = countErrorMsg := by
        simpa using hcontra
      exact absurd this (by decide)
    · rw [if_neg h2]
      cases url with
      | none =>
        intro hcontra
        have : apiUrlErrorMsg = countErrorMsg := by
          simpa using hcontra
        exact absurd this (by decide)
      | some u =>
        rw [submitBaseState_error]
        exact fun hcontra => Option.noConfusion hcontra

/-- **C9 witness**: a non-parsable count input stores the minimum 1. -/
theorem count_input_clamping_witness :
    handleInputChange 1 none = 1 :=
  (count_input_clamping none none).2.1 rfl

end TSPFrontend
